import Mathlib

/-!
Verification model of the streaming ASR gateway (asr_api_service).

The definitions below are a shallow embedding of the Python sources:

* `src/asr_api_service/src/asr_api_service/core/audio/buffer.py` (AudioBuffer)
* `src/asr_api_service/src/asr_api_service/core/audio/vad.py` (VADProcessor)
* `src/asr_api_service/src/asr_api_service/core/streaming/processor.py`
  (StreamingProcessor, AudioSegment)

Audio samples are modelled as rationals (the clipping and slicing logic of the
code is exact arithmetic on the sample values; none of the claims checked here
depends on float rounding).  Sample indices are naturals or integers.  Python
exceptions are modelled with `Except String`.
-/

/-- Python `int(q)` on a real quantity: truncation toward zero. -/
def pyInt (q : ℚ) : ℤ := if 0 ≤ q then ⌊q⌋ else -⌊-q⌋

/-- The per-sample clipping applied by `AudioBuffer.append` (buffer.py:52):
`max(-1.0, min(1.0, float(sample)))`. -/
def clip (x : ℚ) : ℚ := max (-1) (min 1 x)

/-- Conversion of a clipped float sample to int16 for the TEN-VAD classifier
(vad.py:215): `(np.clip(x, -1.0, 1.0) * 32767).astype(np.int16)`; `astype`
truncates toward zero. -/
def toInt16 (x : ℚ) : ℤ := pyInt (clip x * 32767)

/-- Python slice `buf[-m:]` for an integer `m` (used by
`AudioBuffer.trim_old_data`, buffer.py:138).  For `m > 0` it keeps the last
`m` elements; for `m = 0` it is the whole list (Python `buf[-0:]` is
`buf[0:]`); for `m < 0` it is `buf[(-m):]`. -/
def pySliceFromNeg (buf : List ℚ) (m : ℤ) : List ℚ :=
  if 0 < m then buf.drop (buf.length - m.toNat)
  else buf.drop (-m).toNat

/-- AudioBuffer (buffer.py:11-23): a sample rate and the list of stored
samples.  The wall-clock bookkeeping fields (`start_time`,
`last_access_time`) play no role in any claim and are omitted. -/
structure AudioBuffer where
  sampleRate : ℕ
  buffer : List ℚ
deriving DecidableEq

/-- Method `AudioBuffer.append` (buffer.py:25-55): empty input is a no-op, otherwise
every sample is clipped to [-1, 1] and the clipped data is appended.  The
non-numeric-sample error path is unrepresentable for rational samples. -/
def AudioBuffer.append (b : AudioBuffer) (data : List ℚ) : AudioBuffer :=
  if data = [] then b else { b with buffer := b.buffer ++ data.map clip }

/-- Method `AudioBuffer.get_buffer_length` (buffer.py:65-71). -/
def AudioBuffer.get_buffer_length (b : AudioBuffer) : ℕ := b.buffer.length

/-- Method `AudioBuffer.get_duration` (buffer.py:57-63). -/
def AudioBuffer.get_duration (b : AudioBuffer) : ℚ :=
  (b.buffer.length : ℚ) / (b.sampleRate : ℚ)

/-- Method `AudioBuffer.trim_old_data` (buffer.py:129-138):
`max_samples = int(max_duration * sample_rate)`; when the buffer is longer
than `max_samples` it is replaced by `buffer[-max_samples:]`. -/
def AudioBuffer.trim_old_data (b : AudioBuffer) (maxDuration : ℚ) : AudioBuffer :=
  let maxSamples := pyInt (maxDuration * (b.sampleRate : ℚ))
  if maxSamples < (b.buffer.length : ℤ) then
    { b with buffer := pySliceFromNeg b.buffer maxSamples }
  else b

/-- Method `AudioBuffer.clear` (buffer.py:140-143). -/
def AudioBuffer.clear (b : AudioBuffer) : AudioBuffer := { b with buffer := [] }

/-- Method `AudioBuffer.extract_segment` (buffer.py:73-114) with the default
`remove_extracted=False` used at every call site in processor.py: raises on
`start_index < 0 or start_index > len(buffer)`; with `duration=None` returns
`buffer[start_index:]`; otherwise `buffer[start_index:end_index]` with
`end_index = min(start_index + int(duration * sample_rate), len(buffer))`. -/
def AudioBuffer.extract_segment (b : AudioBuffer) (startIndex : ℤ)
    (duration : Option ℚ) : Except String (List ℚ) :=
  if startIndex < 0 ∨ (b.buffer.length : ℤ) < startIndex then
    .error "Invalid start index"
  else
    match duration with
    | none => .ok (b.buffer.drop startIndex.toNat)
    | some d =>
        let samples := (pyInt (d * (b.sampleRate : ℚ))).toNat
        let endIndex := min (startIndex.toNat + samples) b.buffer.length
        .ok ((b.buffer.take endIndex).drop startIndex.toNat)

/-- An append-or-trim operation on the audio buffer, for the indexing claim:
these are the only two mutations `StreamingProcessor` applies to a live
buffer while results can still be emitted (`process_audio` line 124 and
`_cleanup_old_audio` lines 492-495). -/
inductive BufOp
  | append (data : List ℚ)
  | trim (maxDuration : ℚ)
deriving DecidableEq

/-- Apply one buffer operation. -/
def applyOp (b : AudioBuffer) : BufOp → AudioBuffer
  | .append data => b.append data
  | .trim maxDuration => b.trim_old_data maxDuration

/-- Run a sequence of append/trim operations on an initially empty buffer of
the given sample rate. -/
def applyOps (rate : ℕ) (ops : List BufOp) : AudioBuffer :=
  ops.foldl applyOp { sampleRate := rate, buffer := [] }

/-- One step of the appended-samples history: an append records its clipped
data, a trim records nothing. -/
def appendedStep (acc : List ℚ) : BufOp → List ℚ
  | .append data => acc ++ data.map clip
  | .trim _ => acc

/-- The full history of appended (clipped) samples of an operation sequence:
the value originally appended at absolute index `i` is `(appendedAll ops)[i]`. -/
def appendedAll (ops : List BufOp) : List ℚ :=
  ops.foldl appendedStep []

/-- Segment id assignment (processor.py:34-35): `int(timestamp * 1000)` of the
wall-clock creation time `time.time()`. -/
def segmentIdOfTime (t : ℚ) : ℤ := pyInt (t * 1000)

/-- Class `AudioSegment` (processor.py:27-35): audio data, half-open index range
and the id derived from the creation timestamp. -/
structure AudioSeg where
  audio : List ℚ
  startIndex : ℤ
  endIndex : ℤ
  segmentId : ℤ
deriving DecidableEq

/-- Constructor `AudioSegment.__init__` (processor.py:30-35), with the wall-clock
creation instant passed explicitly. -/
def mkAudioSegment (audio : List ℚ) (startIndex endIndex : ℤ) (timestamp : ℚ) :
    AudioSeg :=
  { audio := audio, startIndex := startIndex, endIndex := endIndex,
    segmentId := segmentIdOfTime timestamp }

/-- Mutable state of `VADProcessor` (vad.py:51-79) on the TEN-VAD path
(`use_real_vad = True`); the frame classifier itself is external and is
passed to `vadProcess` as an oracle.  The energy fallback path and the rms
and amplitude metrics involve real square roots of float arithmetic and no
claim depends on them, so they are not modelled. -/
structure VADState where
  threshold : ℚ
  silenceDuration : ℚ
  hopSize : ℕ
  isSpeaking : Bool
  silenceStart : Option ℚ
  debugCounter : ℕ
  vadBuffer : List ℤ
deriving DecidableEq

/-- The part of `VADResult` (vad.py:17-36) that the streaming processor
consumes.  `current_state` is the string rendering of `is_speaking`
(vad.py:146) and is not duplicated here. -/
structure VADResultM where
  isSpeaking : Bool
  stateChanged : Bool
  probability : ℚ
  silenceTimeout : Bool
deriving DecidableEq

/-- The frame loop of `_process_with_ten_vad` (vad.py:224-235): while at
least `hop` samples are buffered, classify one hop-sized frame and keep the
last `(probability, voice_flag)` pair.  The loop is written with explicit
fuel; one hop (at least one sample, given `0 < hop`) is consumed per
iteration, so `buf.length` steps of fuel always suffice.  (For `hop = 0` the
Python loop would not terminate; the configured hop size is 256.) -/
def vadLoopFuel (c : List ℤ → ℚ × ℤ) (hop : ℕ) :
    ℕ → List ℤ → ℚ × ℤ → List ℤ × (ℚ × ℤ)
  | 0, buf, acc => (buf, acc)
  | fuel + 1, buf, acc =>
      if 0 < hop ∧ hop ≤ buf.length then
        vadLoopFuel c hop fuel (buf.drop hop) (c (buf.take hop))
      else (buf, acc)

/-- Run the frame loop to completion. -/
def vadLoop (c : List ℤ → ℚ × ℤ) (hop : ℕ) (buf : List ℤ) (acc : ℚ × ℤ) :
    List ℤ × (ℚ × ℤ) :=
  vadLoopFuel c hop buf.length buf acc

/-- Method `VADProcessor.process` on the TEN-VAD path (vad.py:116-237):
reject empty input; convert the push to int16 and extend the residual
`vad_buffer`; classify complete frames keeping the last
`(probability, voice_flag)`, initialised to `(0.0, 0)`; derive the state
change, the silence-start bookkeeping and the silence timeout.  `now` is the
wall clock `time.time()` of this push; per-frame classifier exceptions are
outside the model (the oracle `c` is total). -/
def vadProcess (c : List ℤ → ℚ × ℤ) (st : VADState) (now : ℚ)
    (audio : List ℚ) : Except String (VADState × VADResultM) :=
  if audio = [] then .error "Empty audio data provided"
  else
    let buf := st.vadBuffer ++ audio.map toInt16
    let r := vadLoop c st.hopSize buf (0, 0)
    let rest := r.1
    let prob := r.2.1
    let flag := r.2.2
    let speaking : Bool := flag = 1
    let stateChanged : Bool := speaking != st.isSpeaking
    let silenceStart1 : Option ℚ :=
      if stateChanged then (if speaking then none else some now)
      else st.silenceStart
    let isSpeaking1 : Bool := if stateChanged then speaking else st.isSpeaking
    let silenceTimeout : Bool :=
      match silenceStart1 with
      | some t => decide (t ≠ 0) && !speaking && decide (st.silenceDuration ≤ now - t)
      | none => false
    .ok ({ st with isSpeaking := isSpeaking1, silenceStart := silenceStart1,
                   vadBuffer := rest, debugCounter := st.debugCounter + 1 },
         { isSpeaking := speaking, stateChanged := stateChanged,
           probability := prob, silenceTimeout := silenceTimeout })

/-- Method `VADProcessor.reset` (vad.py:253-258). -/
def vadReset (v : VADState) : VADState :=
  { v with isSpeaking := false, silenceStart := none, vadBuffer := [],
           debugCounter := 0 }

/-- What a call to `_process_segment` is asked to transcribe and emit: the
audio range, the chunk/reprocess flags and the ids to be replaced
(processor.py:334-347).  The new segment id and the wall-clock processing
time are attached at emission time. -/
structure EmitSpec where
  audio : List ℚ
  startIndex : ℤ
  endIndex : ℤ
  isTimeoutChunk : Bool
  isReprocessed : Bool
  replaces : List ℤ
deriving DecidableEq

/-- The fields of the outbound `StreamingResult`
(models/streaming.py:70-108) that the claims are about. -/
structure StreamingResultM where
  segmentId : ℤ
  text : String
  isFinal : Bool
  isTimeoutChunk : Bool
  isReprocessed : Bool
  replaces : List ℤ
  processingTimeMs : ℕ
deriving DecidableEq

/-- The result message built by `_process_segment` (processor.py:334-434).
The ASR call is external: `asr` is `.ok text` when the provider answered and
`.error ()` when it raised `ASRServiceError`.  On success the message carries
all flags and `replaces_segments or []` (processor.py:389-403); on the error
path (processor.py:427-433) only `segment_id`, `text=""`, `is_final` and the
processing time are passed, so `is_timeout_chunk`, `is_reprocessed` and
`replaces_segments` take their pydantic defaults `False`, `False`, `[]`. -/
def processSegmentResult (seg : AudioSeg) (isTimeoutChunk isReprocessed : Bool)
    (replaces : Option (List ℤ)) (asr : Except Unit String) (procMs : ℕ) :
    StreamingResultM :=
  match asr with
  | .ok text =>
      { segmentId := seg.segmentId, text := text,
        isFinal := !isTimeoutChunk, isTimeoutChunk := isTimeoutChunk,
        isReprocessed := isReprocessed, replaces := replaces.getD [],
        processingTimeMs := procMs }
  | .error _ =>
      { segmentId := seg.segmentId, text := "",
        isFinal := !isTimeoutChunk, isTimeoutChunk := false,
        isReprocessed := false, replaces := [],
        processingTimeMs := procMs }

/-- The `previous_results` history update of `_process_segment`
(processor.py:374-386): the error path leaves the history unchanged; on
success, for non-timeout calls (or a timeout call with no recent chunks yet)
the replaced transcripts are popped, a non-empty new text is appended, and
the history is capped by popping the oldest entry when it exceeds 10. -/
def processSegmentHistory (prev : List String)
    (isTimeoutChunk isReprocessed recentNonempty : Bool)
    (replaces : List ℤ) (asr : Except Unit String) : List String :=
  match asr with
  | .error _ => prev
  | .ok text =>
      if !isTimeoutChunk || !recentNonempty then
        let p1 := if isReprocessed && !replaces.isEmpty then
            prev.take (prev.length - replaces.length)
          else prev
        if text ≠ "" then
          let p2 := p1 ++ [text]
          if 10 < p2.length then p2.drop 1 else p2
        else p1
      else prev

/-- Mutable state of `StreamingProcessor` (processor.py:41-60) relevant to
the claims.  The configured durations and the sample rate
(`settings.audio_sample_rate`, which is also the rate the audio buffer is
constructed with) are carried as fields; the websocket, client id and
provider handles are external. -/
structure ProcessorState where
  sampleRate : ℕ
  maxSegmentDuration : ℚ
  lookbackDuration : ℚ
  isRecording : Bool
  speechStartIndex : Option ℕ
  lastChunkEndIndex : ℕ
  recentChunks : List AudioSeg
  previousResults : List String
  audioBuffer : AudioBuffer
  vad : VADState
deriving DecidableEq

/-- Method `_reset_speech_state` (processor.py:486-490). -/
def resetSpeechState (st : ProcessorState) : ProcessorState :=
  { st with speechStartIndex := none, lastChunkEndIndex := 0,
            recentChunks := [] }

/-- The `reset` branch of `handle_control` (processor.py:469-476): stop
recording, reset the speech state, clear the audio buffer and the result
history, and reset the VAD processor. -/
def handleControlReset (st : ProcessorState) : ProcessorState :=
  { resetSpeechState st with
      isRecording := false,
      audioBuffer := st.audioBuffer.clear,
      previousResults := [],
      vad := vadReset st.vad }

/-- Method `_should_process_timeout_chunk` (processor.py:191-195). -/
def shouldProcessTimeoutChunk (st : ProcessorState) (curLen : ℕ) : Bool :=
  decide (st.maxSegmentDuration ≤
    ((curLen : ℚ) - (st.lastChunkEndIndex : ℚ)) / (st.sampleRate : ℚ))

/-- The chunk end computed by `_process_timeout_chunk` (processor.py:199-201):
`min(chunk_start + int(max_segment_duration * sample_rate),
current_buffer_length)`. -/
def timeoutChunkEnd (st : ProcessorState) (curLen : ℕ) : ℕ :=
  min (st.lastChunkEndIndex +
        (pyInt (st.maxSegmentDuration * (st.sampleRate : ℚ))).toNat) curLen

/-- Method `_process_timeout_chunk` (processor.py:197-226): extract
`[chunk_start, chunk_end)`; when the extracted audio is empty, return with no
emission and no state change; otherwise emit a timeout chunk, append it to
`recent_chunks` (keeping the last 3) and advance `last_chunk_end_index`.
Returns the emission together with the updated `last_chunk_end_index` and
`recent_chunks`; `newId` is the wall-clock id given to the new segment. -/
def processTimeoutChunk (st : ProcessorState) (curLen : ℕ) (newId : ℤ) :
    Except String (Option EmitSpec × ℕ × List AudioSeg) :=
  let chunkStart := st.lastChunkEndIndex
  let chunkEnd := timeoutChunkEnd st curLen
  let dur : Option ℚ :=
    if chunkEnd = curLen then none
    else some (((chunkEnd : ℚ) - (chunkStart : ℚ)) / (st.sampleRate : ℚ))
  match st.audioBuffer.extract_segment (chunkStart : ℤ) dur with
  | .error e => .error e
  | .ok seg =>
      if seg = [] then
        .ok (none, st.lastChunkEndIndex, st.recentChunks)
      else
        let s : AudioSeg :=
          { audio := seg, startIndex := (chunkStart : ℤ),
            endIndex := (chunkEnd : ℤ), segmentId := newId }
        let chunks := st.recentChunks ++ [s]
        let chunks := if 3 < chunks.length then chunks.drop 1 else chunks
        .ok (some { audio := seg, startIndex := (chunkStart : ℤ),
                    endIndex := (chunkEnd : ℤ), isTimeoutChunk := true,
                    isReprocessed := false, replaces := [] },
             chunkEnd, chunks)

/-- Method `_reprocess_speech_segment` (processor.py:254-279): extract the whole
utterance `[speech_start_index or 0, end)` and emit it as a reprocessed
segment replacing the ids of all `recent_chunks`. -/
def reprocessSpeechSegment (st : ProcessorState) (curLen : ℕ) :
    Except String (Option EmitSpec) :=
  let startIndex := st.speechStartIndex.getD 0
  match st.audioBuffer.extract_segment (startIndex : ℤ) none with
  | .error e => .error e
  | .ok seg =>
      if seg = [] then .ok none
      else
        .ok (some { audio := seg, startIndex := (startIndex : ℤ),
                    endIndex := (curLen : ℤ), isTimeoutChunk := false,
                    isReprocessed := true,
                    replaces := st.recentChunks.map AudioSeg.segmentId })

/-- Method `_reprocess_with_lookback` (processor.py:281-317): compute
`lookback_start_index = max(current_buffer_length -
int(lookback_duration * sample_rate), speech_start_index or 0)`; find the
first recent chunk whose `start_index` is at least that point; reprocess
from that chunk boundary (replacing the chunks from it onward), or from the
lookback point itself with nothing replaced when no chunk qualifies. -/
def reprocessWithLookback (st : ProcessorState) (curLen : ℕ) :
    Except String (Option EmitSpec) :=
  let lookbackStart : ℤ :=
    max ((curLen : ℤ) - pyInt (st.lookbackDuration * (st.sampleRate : ℚ)))
        ((st.speechStartIndex.getD 0 : ℕ) : ℤ)
  let found := st.recentChunks.find? (fun ch => decide (lookbackStart ≤ ch.startIndex))
  let reprocessStart : ℤ :=
    match found with
    | some ch => ch.startIndex
    | none => lookbackStart
  let chunksToReplace : List AudioSeg :=
    match found with
    | some ch => st.recentChunks.filter (fun c2 => decide (ch.startIndex ≤ c2.startIndex))
    | none => []
  match st.audioBuffer.extract_segment reprocessStart none with
  | .error e => .error e
  | .ok seg =>
      if seg = [] then .ok none
      else
        .ok (some { audio := seg, startIndex := reprocessStart,
                    endIndex := (curLen : ℤ), isTimeoutChunk := false,
                    isReprocessed := true,
                    replaces := chunksToReplace.map AudioSeg.segmentId })

/-- Method `_process_final_segment` (processor.py:319-332): no timeout chunks were
emitted; transcribe the whole utterance as a plain final segment
(`is_timeout_chunk=False`, `is_reprocessed` and `replaces_segments` left at
their defaults). -/
def processFinalSegment (st : ProcessorState) (curLen : ℕ) :
    Except String (Option EmitSpec) :=
  let startIndex := st.speechStartIndex.getD 0
  match st.audioBuffer.extract_segment (startIndex : ℤ) none with
  | .error e => .error e
  | .ok seg =>
      if seg = [] then .ok none
      else
        .ok (some { audio := seg, startIndex := (startIndex : ℤ),
                    endIndex := (curLen : ℤ), isTimeoutChunk := false,
                    isReprocessed := false, replaces := [] })

/-- Method `_process_speech_end` (processor.py:228-252): with no active utterance,
nothing happens; otherwise pick the utterance-end policy from the presence
of recent timeout chunks and the utterance duration
`(current_buffer_length - speech_start_index) / sample_rate`. -/
def processSpeechEnd (st : ProcessorState) (curLen : ℕ) :
    Except String (Option EmitSpec) :=
  match st.speechStartIndex with
  | none => .ok none
  | some u =>
      let speechDuration : ℚ :=
        ((curLen : ℚ) - (u : ℚ)) / (st.sampleRate : ℚ)
      if st.recentChunks ≠ [] ∧ speechDuration ≤ st.lookbackDuration then
        reprocessSpeechSegment st curLen
      else if st.recentChunks ≠ [] then
        reprocessWithLookback st curLen
      else
        processFinalSegment st curLen

/-- Method `_cleanup_old_audio` (processor.py:492-495). -/
def cleanupOldAudio (st : ProcessorState) : ProcessorState :=
  { st with audioBuffer := st.audioBuffer.trim_old_data st.maxSegmentDuration }

/-- An outbound websocket message of the streaming processor: either a
status message with the VAD snapshot (`_send_vad_status`,
processor.py:497-517) or a transcription result (`_send_result`,
processor.py:519-522). -/
inductive OutMsg
  | status (vad : VADResultM)
  | result (r : StreamingResultM)
deriving DecidableEq

/-- Method `_send_vad_status` (processor.py:497-517).  Building the status message
evaluates the name `StreamingStatus` (processor.py:510), which the module
never imports (the import list at processor.py:15-22 brings in `VADStatus`
but not `StreamingStatus`), so in Python the call raises `NameError` before
any message is sent.  The model therefore returns an error and no sent
messages. -/
def sendVadStatus (_vadResult : VADResultM) : Except String (List OutMsg) :=
  .error "NameError: name StreamingStatus is not defined"

/-- The `previous_results` side effect of one `_process_segment` call, given
the emission decided by the segmentation policy (`recentNonempty` is the
content of `self.recent_chunks` at call time, before any chunk append). -/
def applyHistory (st : ProcessorState) (emitted : Option EmitSpec)
    (asr : Except Unit String) : ProcessorState :=
  match emitted with
  | none => st
  | some spec =>
      { st with previousResults :=
          (processSegmentHistory st.previousResults spec.isTimeoutChunk
            spec.isReprocessed (!st.recentChunks.isEmpty) spec.replaces asr) }

/-- Method `_handle_vad_result` (processor.py:145-189): on a silence-to-speech edge
place the utterance start up to 0.5 s back and clear the per-utterance
state, then fall through; on a speech-to-silence edge with an active
utterance run the utterance-end policy and reset the speech state; otherwise
cut a timeout chunk when one is due during speech, or trim old audio during
long silence.  `asr` is the outcome of the (single possible) provider call,
`newId` the wall-clock id of a newly created segment and `procMs` the
measured processing time. -/
def handleVadResult (st : ProcessorState) (r : VADResultM)
    (asr : Except Unit String) (newId : ℤ) (procMs : ℕ) :
    Except String (List OutMsg × ProcessorState × Option ℕ) :=
  let curLen := st.audioBuffer.get_buffer_length
  let st1 :=
    if r.stateChanged && r.isSpeaking then
      let lookbackSamples :=
        min st.audioBuffer.buffer.length
          (pyInt ((1 : ℚ) / 2 * (st.sampleRate : ℚ))).toNat
      { st with speechStartIndex := some (curLen - lookbackSamples),
                lastChunkEndIndex := curLen - lookbackSamples,
                recentChunks := [] }
    else st
  if r.stateChanged && !r.isSpeaking && st1.speechStartIndex.isSome then
    match processSpeechEnd st1 curLen with
    | .error e => .error e
    | .ok emitted =>
        let msgs := match emitted with
          | some spec =>
              [OutMsg.result (processSegmentResult
                ⟨spec.audio, spec.startIndex, spec.endIndex, newId⟩
                spec.isTimeoutChunk spec.isReprocessed (some spec.replaces)
                asr procMs)]
          | none => []
        let t := match emitted with
          | some _ => procMs
          | none => 0
        .ok (msgs, resetSpeechState (applyHistory st1 emitted asr), some t)
  else if r.isSpeaking && st1.speechStartIndex.isSome &&
      shouldProcessTimeoutChunk st1 curLen then
    match processTimeoutChunk st1 curLen newId with
    | .error e => .error e
    | .ok (emitted, newLastEnd, newChunks) =>
        let msgs := match emitted with
          | some spec =>
              [OutMsg.result (processSegmentResult
                ⟨spec.audio, spec.startIndex, spec.endIndex, newId⟩
                spec.isTimeoutChunk spec.isReprocessed (some spec.replaces)
                asr procMs)]
          | none => []
        let t := match emitted with
          | some _ => procMs
          | none => 0
        .ok (msgs, { applyHistory st1 emitted asr with
                       lastChunkEndIndex := newLastEnd,
                       recentChunks := newChunks }, some t)
  else if !r.isSpeaking &&
      decide (st1.maxSegmentDuration * 2 < st1.audioBuffer.get_duration) then
    .ok ([], cleanupOldAudio st1, none)
  else
    .ok ([], st1, none)

/-- Method `process_audio` (processor.py:104-143): drop the push when not
recording; otherwise append the audio to the buffer, run VAD, send the VAD
status and handle the VAD result.  Any exception is wrapped into a
`StreamingError`.  The returned triple is (messages actually sent, outcome,
new state); because `_send_vad_status` raises `NameError` (see
`sendVadStatus`), every recorded push fails before any message is sent. -/
def processAudio (c : List ℤ → ℚ × ℤ) (st : ProcessorState) (now : ℚ)
    (chunk : List ℚ) (asr : Except Unit String) (newId : ℤ) (procMs : ℕ) :
    List OutMsg × Except String (Option ℕ) × ProcessorState :=
  if !st.isRecording then ([], .ok none, st)
  else
    let st1 := { st with audioBuffer := st.audioBuffer.append chunk }
    match vadProcess c st1.vad now chunk with
    | .error _ => ([], .error "Audio processing failed", st1)
    | .ok (v, r) =>
        let st2 := { st1 with vad := v }
        match sendVadStatus r with
        | .error _ => ([], .error "Audio processing failed", st2)
        | .ok msgs0 =>
            match handleVadResult st2 r asr newId procMs with
            | .error _ => (msgs0, .error "Audio processing failed", st2)
            | .ok (msgs, st3, t) => (msgs0 ++ msgs, .ok t, st3)

/-! Concrete inputs used by the witness and counterexample theorems below. -/

/-- A VAD state with the default configuration (threshold 0.5, silence
duration 0.8 s, hop size 256) in the silence state with an empty frame
buffer. -/
def vadIdle : VADState :=
  { threshold := 1/2, silenceDuration := 4/5, hopSize := 256,
    isSpeaking := false, silenceStart := none, debugCounter := 0,
    vadBuffer := [] }

/-- A frame classifier oracle that reports speech on every frame it is
actually given. -/
def oracleSpeech : List ℤ → ℚ × ℤ := fun _ => (1, 1)

/-- Operation sequence for the indexing counterexample: append three samples
at rate 1, then trim to a maximum duration of 2 seconds (2 samples). -/
def opsC1 : List BufOp := [BufOp.append [0, 1/2, 1], BufOp.trim 2]

/-- Processor state for the lookback-without-boundary claim: rate 1, maximum
segment duration 3, lookback 9; the utterance started at index 0, a single
timeout chunk covered [0, 3) (so last_chunk_end_index = 3, chunk id 50), and
the silence edge arrives at index 20 with the buffer holding 20 samples. -/
def stC2 : ProcessorState :=
  { sampleRate := 1, maxSegmentDuration := 3, lookbackDuration := 9,
    isRecording := true, speechStartIndex := some 0, lastChunkEndIndex := 3,
    recentChunks := [{ audio := List.replicate 3 0, startIndex := 0,
                       endIndex := 3, segmentId := 50 }],
    previousResults := [],
    audioBuffer := { sampleRate := 1, buffer := List.replicate 20 0 },
    vad := vadIdle }

/-- The segment actually emitted for `stC2` at the silence edge. -/
def specC2 : EmitSpec :=
  { audio := List.replicate 9 0, startIndex := 11, endIndex := 20,
    isTimeoutChunk := false, isReprocessed := true, replaces := [] }

/-- Processor state for the short-utterance reprocess claim: rate 1,
utterance start 0, one timeout chunk with id 100, silence edge at index 2
with two buffered samples; utterance duration 2 s is within the lookback. -/
def stC3 : ProcessorState :=
  { sampleRate := 1, maxSegmentDuration := 3, lookbackDuration := 9,
    isRecording := true, speechStartIndex := some 0, lastChunkEndIndex := 1,
    recentChunks := [{ audio := [0], startIndex := 0, endIndex := 1,
                       segmentId := 100 }],
    previousResults := [],
    audioBuffer := { sampleRate := 1, buffer := [0, 0] },
    vad := vadIdle }

/-- A one-sample timeout-chunk segment used by the provider-failure claim. -/
def segC4 : AudioSeg := { audio := [0], startIndex := 0, endIndex := 1, segmentId := 42 }

/-- Processor state for the truncated-timeout-chunk claim: rate 1 and a
maximum segment duration of half a second, so that a due chunk truncates to
zero samples (the only way a due chunk can come out shorter than half the
maximum duration). -/
def stC6 : ProcessorState :=
  { sampleRate := 1, maxSegmentDuration := 1/2, lookbackDuration := 9,
    isRecording := true, speechStartIndex := some 0, lastChunkEndIndex := 0,
    recentChunks := [], previousResults := [],
    audioBuffer := { sampleRate := 1, buffer := [0] },
    vad := vadIdle }

/-- An initialized, recording processor session with an empty buffer and the
default configuration, about to receive its first audio push. -/
def stC8 : ProcessorState :=
  { sampleRate := 16000, maxSegmentDuration := 3, lookbackDuration := 9,
    isRecording := true, speechStartIndex := none, lastChunkEndIndex := 0,
    recentChunks := [], previousResults := [],
    audioBuffer := { sampleRate := 16000, buffer := [] },
    vad := vadIdle }

/-- A speaking VAD state with an empty frame buffer, hit by a push shorter
than one hop. -/
def stC10 : VADState :=
  { threshold := 1/2, silenceDuration := 4/5, hopSize := 256,
    isSpeaking := true, silenceStart := none, debugCounter := 0,
    vadBuffer := [] }

/-! ## Theorems -/

/-- Helper: `AudioBuffer.append` always appends the clipped data (the empty
guard is a no-op in both readings). -/
theorem AudioBuffer.append_buffer (b : AudioBuffer) (data : List ℚ) :
    (b.append data).buffer = b.buffer ++ data.map clip := by
  unfold AudioBuffer.append
  by_cases h : data = []
  · subst h; simp
  · rw [if_neg h]

/-- C9: for every input sample, the value stored by `AudioBuffer.append` at
the corresponding position is `max(-1.0, min(1.0, x))`; positions past the
input are untouched (both sides are `none`). -/
theorem append_stores_clipped (b : AudioBuffer) (data : List ℚ) (i : ℕ) :
    (b.append data).buffer[b.buffer.length + i]? =
      data[i]?.map (fun x => max (-1 : ℚ) (min 1 x)) := by
  rw [AudioBuffer.append_buffer]
  rw [List.getElem?_append_right (by omega)]
  simp only [Nat.add_sub_cancel_left, List.getElem?_map]
  cases data[i]? <;> simp [clip]

/-- Helper: appending the same tail preserves the suffix relation. -/
theorem suffix_append_same {l₁ l₂ t : List ℚ} (h : l₁ <:+ l₂) :
    l₁ ++ t <:+ l₂ ++ t := by
  obtain ⟨w, hw⟩ := h
  exact ⟨w, by rw [← hw, List.append_assoc]⟩

/-- Helper: `trim_old_data` always keeps a suffix of the buffer. -/
theorem trim_old_data_suffix (b : AudioBuffer) (m : ℚ) :
    (b.trim_old_data m).buffer <:+ b.buffer := by
  by_cases h1 : pyInt (m * (b.sampleRate : ℚ)) < (b.buffer.length : ℤ)
  · by_cases h2 : 0 < pyInt (m * (b.sampleRate : ℚ))
    · simp only [AudioBuffer.trim_old_data, pySliceFromNeg, if_pos h1, if_pos h2]
      exact List.drop_suffix _ _
    · simp only [AudioBuffer.trim_old_data, pySliceFromNeg, if_pos h1, if_neg h2]
      exact List.drop_suffix _ _
  · simp only [AudioBuffer.trim_old_data, if_neg h1]
    exact List.suffix_refl _

/-- Helper: along any operation sequence the live buffer is a suffix of the
history of all appended (clipped) samples. -/
theorem foldl_buffer_suffix (ops : List BufOp) :
    ∀ (b : AudioBuffer) (all : List ℚ), b.buffer <:+ all →
      (ops.foldl applyOp b).buffer <:+ ops.foldl appendedStep all := by
  induction ops with
  | nil => intro b all h; simpa using h
  | cons op rest ih =>
      intro b all h
      simp only [List.foldl_cons]
      apply ih
      cases op with
      | append data =>
          simp only [applyOp, appendedStep]
          rw [AudioBuffer.append_buffer]
          exact suffix_append_same h
      | trim m =>
          simp only [applyOp, appendedStep]
          exact (trim_old_data_suffix b m).trans h

/-- C1 (amended): after any sequence of appends and trims, the buffer is a
suffix of the sequence of all appended (clipped) samples: there is a drop
count `d` (the number of samples trimmed away so far) such that the sample
at buffer index `i` is bitwise the value originally appended at absolute
index `d + i`.  Trimming therefore re-indexes the retained samples by `d`;
the original claim that index `i` always still holds the value appended at
`i` is refuted by `trim_reindexes_counterexample`. -/
theorem buffer_is_suffix_of_appended (rate : ℕ) (ops : List BufOp) :
    ∃ d : ℕ, ∀ i : ℕ,
      (applyOps rate ops).buffer[i]? = (appendedAll ops)[d + i]? := by
  have h := foldl_buffer_suffix ops { sampleRate := rate, buffer := [] } []
    (List.suffix_refl _)
  obtain ⟨t, ht⟩ := h
  refine ⟨t.length, fun i => ?_⟩
  unfold applyOps appendedAll
  rw [← ht, List.getElem?_append_right (by omega)]
  congr 1
  omega

/-- C1 (counterexample): append `[0, 1/2, 1]` at rate 1, then trim to 2
seconds.  The sample now at index 0 is `1/2`, not the originally appended
`0`: `trim_old_data` re-indexes the surviving samples. -/
theorem trim_reindexes_counterexample :
    (applyOps 1 opsC1).buffer[0]? = some (1/2) ∧
      (appendedAll opsC1)[0]? = some 0 ∧
      (applyOps 1 opsC1).buffer[0]? ≠ (appendedAll opsC1)[0]? := by
  have happ : (applyOps 1 opsC1).buffer = [1/2, 1] := by
    have h1 : ({ sampleRate := 1, buffer := [] } : AudioBuffer).append [0, 1/2, 1] =
        { sampleRate := 1, buffer := [0, 1/2, 1] } := by
      rw [AudioBuffer.append]
      rw [if_neg (by simp)]
      norm_num [clip, min_def, max_def]
    simp only [applyOps, opsC1, List.foldl_cons, List.foldl_nil, applyOp, h1]
    norm_num [AudioBuffer.trim_old_data, pyInt, pySliceFromNeg]
    rfl
  have hall : appendedAll opsC1 = [0, 1/2, 1] := by
    simp only [appendedAll, opsC1, List.foldl_cons, List.foldl_nil, appendedStep]
    norm_num [clip, min_def, max_def]
  rw [happ, hall]
  norm_num

/-- C7: the `reset` control command is idempotent: applying it twice leaves
the recording flag, the speech/segmentation state, the audio buffer, the
result history and the VAD state exactly as applying it once. -/
theorem reset_idempotent (st : ProcessorState) :
    handleControlReset (handleControlReset st) = handleControlReset st := by
  simp [handleControlReset, resetSpeechState, vadReset, AudioBuffer.clear]

/-- C5 (amended): segment ids are monotone, not strictly increasing, in
creation order: `int(t * 1000)` is non-decreasing in the wall-clock creation
time `t`, and two segments created within the same millisecond receive equal
ids (see `segment_id_counterexample`). -/
theorem segment_id_monotone (t1 t2 : ℚ) (h0 : 0 ≤ t1) (h : t1 ≤ t2) :
    segmentIdOfTime t1 ≤ segmentIdOfTime t2 := by
  unfold segmentIdOfTime pyInt
  have h1 : (0 : ℚ) ≤ t1 * 1000 := by positivity
  have h2 : (0 : ℚ) ≤ t2 * 1000 := le_trans h1 (by nlinarith)
  rw [if_pos h1, if_pos h2]
  exact Int.floor_le_floor (by nlinarith)

/-- C5 (witness): monotonicity applied at creation times 1 s and 2 s. -/
theorem segment_id_monotone_witness :
    segmentIdOfTime 1 ≤ segmentIdOfTime 2 :=
  segment_id_monotone 1 2 (by norm_num) (by norm_num)

/-- C5 (counterexample): two `AudioSegment`s created at strictly increasing
wall-clock instants 0 s and 0.0005 s receive the same id, so emitted ids do
not strictly increase. -/
theorem segment_id_counterexample :
    (0 : ℚ) < 1/2000 ∧
      (mkAudioSegment [] 0 0 0).segmentId =
        (mkAudioSegment [] 0 0 (1/2000)).segmentId := by
  constructor
  · norm_num
  · show segmentIdOfTime 0 = segmentIdOfTime (1/2000)
    unfold segmentIdOfTime pyInt
    norm_num

/-- C4 (amended): when the provider call fails, `_process_segment` still
emits a result with empty text, the same segment id, an empty `replaces`
list (so previously accepted chunks stay accepted) and
`is_final = not is_timeout_chunk`, and the call returns normally; but the
result does not keep the timeout-chunk or reprocessed marking: the emitted
`is_timeout_chunk` and `is_reprocessed` flags are `false` regardless of the
kind of call (see `failed_chunk_flags_counterexample`). -/
theorem failed_segment_result (seg : AudioSeg) (tc rp : Bool)
    (repl : Option (List ℤ)) (ms : ℕ) :
    (processSegmentResult seg tc rp repl (.error ()) ms).text = "" ∧
      (processSegmentResult seg tc rp repl (.error ()) ms).segmentId = seg.segmentId ∧
      (processSegmentResult seg tc rp repl (.error ()) ms).replaces = [] ∧
      (processSegmentResult seg tc rp repl (.error ()) ms).isFinal = !tc ∧
      (processSegmentResult seg tc rp repl (.error ()) ms).isTimeoutChunk = false ∧
      (processSegmentResult seg tc rp repl (.error ()) ms).isReprocessed = false := by
  simp [processSegmentResult]

/-- C4 (counterexample): a timeout chunk whose transcription fails is
emitted with `is_timeout_chunk = false` (and `is_final = false`), so the
result does not keep timeout-chunk semantics: the error path of
`_process_segment` does not pass the flags through. -/
theorem failed_chunk_flags_counterexample :
    (processSegmentResult segC4 true false none (.error ()) 5).isTimeoutChunk = false ∧
      (processSegmentResult segC4 true false none (.error ()) 5).isFinal = false := by
  constructor <;> rfl

/-- Helper: the frame loop does nothing when fewer than one hop of samples
is buffered. -/
theorem vadLoopFuel_small (c : List ℤ → ℚ × ℤ) (hop : ℕ) (fuel : ℕ)
    (buf : List ℤ) (acc : ℚ × ℤ) (h : buf.length < hop) :
    vadLoopFuel c hop fuel buf acc = (buf, acc) := by
  cases fuel with
  | zero => rfl
  | succ n =>
      unfold vadLoopFuel
      rw [if_neg]
      intro hc
      omega

/-- C10: with the real classifier in use, a non-empty push that leaves the
accumulated frame buffer with fewer than `hop_size` samples classifies no
frame, so `process` returns `is_speaking = false` with probability 0
regardless of the previous state, and `state_changed` equals the previous
`is_speaking`: a short push while speaking yields a spurious
speech-to-silence edge. -/
theorem vad_short_push_spurious_silence (c : List ℤ → ℚ × ℤ) (st : VADState)
    (now : ℚ) (audio : List ℚ) (hne : audio ≠ [])
    (hshort : st.vadBuffer.length + audio.length < st.hopSize) :
    (vadProcess c st now audio).map
        (fun p => (p.2.isSpeaking, p.2.probability, p.2.stateChanged)) =
      .ok (false, 0, st.isSpeaking) := by
  have hlen : (st.vadBuffer ++ audio.map toInt16).length < st.hopSize := by
    simp only [List.length_append, List.length_map]
    exact hshort
  have key : vadLoopFuel c st.hopSize (st.vadBuffer ++ audio.map toInt16).length
      (st.vadBuffer ++ audio.map toInt16) (0, 0) =
      (st.vadBuffer ++ audio.map toInt16, (0, 0)) :=
    vadLoopFuel_small _ _ _ _ _ hlen
  simp only [vadProcess, vadLoop, if_neg hne, key, Except.map]
  cases h : st.isSpeaking <;> simp

/-- C10 (witness): a one-sample push into a speaking VAD state with hop size
256 produces a silence result with probability 0 and a state change. -/
theorem vad_short_push_witness :
    (vadProcess oracleSpeech stC10 100 [1/2]).map
        (fun p => (p.2.isSpeaking, p.2.probability, p.2.stateChanged)) =
      .ok (false, 0, true) :=
  vad_short_push_spurious_silence oracleSpeech stC10 100 [1/2]
    (by simp) (by simp [stC10])

/-- C8 (code bug): for every audio push processed while recording, no
outbound message at all is produced and `process_audio` fails: building the
VAD status message evaluates `StreamingStatus`, a name processor.py never
imports, so `_send_vad_status` raises `NameError` before sending, the
exception is wrapped into a `StreamingError`, and neither the status message
nor any result message is sent — contradicting the claimed
status-before-results emission ordering. -/
theorem recorded_push_sends_nothing (c : List ℤ → ℚ × ℤ)
    (st : ProcessorState) (now : ℚ) (chunk : List ℚ)
    (asr : Except Unit String) (newId : ℤ) (procMs : ℕ)
    (hrec : st.isRecording = true) :
    (processAudio c st now chunk asr newId procMs).1 = [] ∧
      ∃ e, (processAudio c st now chunk asr newId procMs).2.1 = .error e := by
  unfold processAudio
  rw [hrec]
  dsimp only
  cases hv : vadProcess c st.vad now chunk with
  | error e => simp
  | ok vr =>
      obtain ⟨v, r⟩ := vr
      simp [sendVadStatus]

/-- C8 (witness): the first push of half-amplitude audio into a freshly
started recording session produces no messages and an error. -/
theorem recorded_push_sends_nothing_witness :
    (processAudio oracleSpeech stC8 100 [1/2] (.ok "hello") 1 5).1 = [] ∧
      ∃ e, (processAudio oracleSpeech stC8 100 [1/2] (.ok "hello") 1 5).2.1 = .error e :=
  recorded_push_sends_nothing oracleSpeech stC8 100 [1/2] (.ok "hello") 1 5 rfl

/-- C3: at utterance end (silence edge with `current_buffer_length` buffered
samples), when at least one timeout chunk is pending and the utterance
duration is at most the lookback duration, the controller transcribes
exactly `[speech_start_index, current_buffer_length)` and emits one
reprocessed (non-timeout) segment whose `replaces` list is the ids of all
segments currently in `recent_chunks`. -/
theorem speech_end_reprocesses_whole_utterance (st : ProcessorState) (u : ℕ)
    (hu : st.speechStartIndex = some u)
    (hc : st.recentChunks ≠ [])
    (hlen : u < st.audioBuffer.buffer.length)
    (hdur : ((st.audioBuffer.buffer.length : ℚ) - (u : ℚ)) / (st.sampleRate : ℚ) ≤
      st.lookbackDuration) :
    processSpeechEnd st st.audioBuffer.buffer.length =
      .ok (some { audio := st.audioBuffer.buffer.drop u,
                  startIndex := (u : ℤ),
                  endIndex := (st.audioBuffer.buffer.length : ℤ),
                  isTimeoutChunk := false, isReprocessed := true,
                  replaces := st.recentChunks.map AudioSeg.segmentId }) := by
  unfold processSpeechEnd
  rw [hu]
  dsimp only
  rw [if_pos ⟨hc, hdur⟩]
  unfold reprocessSpeechSegment
  rw [hu]
  dsimp only [Option.getD_some]
  unfold AudioBuffer.extract_segment
  rw [if_neg (by omega)]
  dsimp only [Int.toNat_natCast]
  rw [if_neg (by rw [List.drop_eq_nil_iff]; omega)]

/-- C3 (witness): with utterance start 0, one pending chunk of id 100 and a
2-sample buffer at rate 1 (duration 2 s, lookback 9 s), the whole utterance
is reprocessed with `replaces = [100]`. -/
theorem speech_end_reprocesses_whole_utterance_witness :
    processSpeechEnd stC3 stC3.audioBuffer.buffer.length =
      .ok (some { audio := stC3.audioBuffer.buffer.drop 0,
                  startIndex := 0, endIndex := (stC3.audioBuffer.buffer.length : ℤ),
                  isTimeoutChunk := false, isReprocessed := true,
                  replaces := [100] }) :=
  speech_end_reprocesses_whole_utterance stC3 0 rfl (by simp [stC3])
    (by simp [stC3]) (by norm_num [stC3])

/-- Helper: evaluation of the utterance-end policy in the
no-chunk-in-lookback-window case. -/
theorem lookbackNoBoundary_eval (st : ProcessorState) (u : ℕ)
    (hu : st.speechStartIndex = some u)
    (hc : st.recentChunks ≠ [])
    (hlb : 1 ≤ st.lookbackDuration * (st.sampleRate : ℚ))
    (hdur : st.lookbackDuration <
      ((st.audioBuffer.buffer.length : ℚ) - (u : ℚ)) / (st.sampleRate : ℚ))
    (hnochunk : ∀ ch ∈ st.recentChunks,
      (ch.startIndex : ℚ) < (st.audioBuffer.buffer.length : ℚ) -
        st.lookbackDuration * (st.sampleRate : ℚ))
    (hlt : u < st.audioBuffer.buffer.length) :
    processSpeechEnd st st.audioBuffer.buffer.length =
      .ok (some { audio := st.audioBuffer.buffer.drop
                    (max ((st.audioBuffer.buffer.length : ℤ) -
                      pyInt (st.lookbackDuration * (st.sampleRate : ℚ))) (u : ℤ)).toNat,
                  startIndex := max ((st.audioBuffer.buffer.length : ℤ) -
                    pyInt (st.lookbackDuration * (st.sampleRate : ℚ))) (u : ℤ),
                  endIndex := (st.audioBuffer.buffer.length : ℤ),
                  isTimeoutChunk := false, isReprocessed := true,
                  replaces := [] }) := by
  have hq0 : (0 : ℚ) ≤ st.lookbackDuration * (st.sampleRate : ℚ) :=
    le_trans zero_le_one hlb
  have hpy : pyInt (st.lookbackDuration * (st.sampleRate : ℚ)) =
      ⌊st.lookbackDuration * (st.sampleRate : ℚ)⌋ := by
    unfold pyInt
    rw [if_pos hq0]
  have hfl1 : 1 ≤ ⌊st.lookbackDuration * (st.sampleRate : ℚ)⌋ :=
    Int.le_floor.mpr (by exact_mod_cast hlb)
  have hflq : (⌊st.lookbackDuration * (st.sampleRate : ℚ)⌋ : ℚ) ≤
      st.lookbackDuration * (st.sampleRate : ℚ) := Int.floor_le _
  have hfind : st.recentChunks.find?
      (fun ch => decide (max ((st.audioBuffer.buffer.length : ℤ) -
        pyInt (st.lookbackDuration * (st.sampleRate : ℚ))) ((u : ℕ) : ℤ) ≤
        ch.startIndex)) = none := by
    rw [List.find?_eq_none]
    intro ch hch
    simp only [decide_eq_true_eq, not_le]
    rw [lt_max_iff]
    left
    rw [hpy]
    have h1 : (ch.startIndex : ℚ) <
        ((st.audioBuffer.buffer.length : ℤ) -
          ⌊st.lookbackDuration * (st.sampleRate : ℚ)⌋ : ℤ) := by
      push_cast
      have := hnochunk ch hch
      linarith
    exact_mod_cast h1
  unfold processSpeechEnd
  rw [hu]
  dsimp only
  rw [if_neg (by
    rintro ⟨-, h2⟩
    exact absurd h2 (not_le.mpr hdur))]
  rw [if_pos hc]
  unfold reprocessWithLookback
  rw [hu]
  simp only [Option.getD_some, hfind]
  have hls_nonneg : (0 : ℤ) ≤ max ((st.audioBuffer.buffer.length : ℤ) -
      pyInt (st.lookbackDuration * (st.sampleRate : ℚ))) (u : ℤ) :=
    le_trans (Int.ofNat_nonneg u) (le_max_right _ _)
  have hls_lt : max ((st.audioBuffer.buffer.length : ℤ) -
      pyInt (st.lookbackDuration * (st.sampleRate : ℚ))) (u : ℤ) <
      (st.audioBuffer.buffer.length : ℤ) := by
    rw [hpy]
    apply max_lt
    · omega
    · omega
  unfold AudioBuffer.extract_segment
  rw [if_neg (by
    rintro (h | h)
    · omega
    · omega)]
  dsimp only
  rw [if_neg (by rw [List.drop_eq_nil_iff]; omega)]
  rw [List.map_nil]

/-- C2 (amended): at utterance end with pending timeout chunks, when the
utterance exceeds the lookback duration and no recent chunk starts at or
after the lookback point, `_reprocess_with_lookback` transcribes
`[max(E - int(lookback_duration * rate), U), E)` — not
`[last_chunk_end, E)` — and emits it with an empty `replaces` list marked as
a reprocessed segment (`is_reprocessed = true`, and `is_final = true` since
it is not a timeout chunk); the earlier timeout chunks remain accepted
because `replaces` is empty. -/
theorem speech_end_lookback_no_boundary (st : ProcessorState) (u : ℕ)
    (hu : st.speechStartIndex = some u)
    (hc : st.recentChunks ≠ [])
    (hlb : 1 ≤ st.lookbackDuration * (st.sampleRate : ℚ))
    (hdur : st.lookbackDuration <
      ((st.audioBuffer.buffer.length : ℚ) - (u : ℚ)) / (st.sampleRate : ℚ))
    (hnochunk : ∀ ch ∈ st.recentChunks,
      (ch.startIndex : ℚ) < (st.audioBuffer.buffer.length : ℚ) -
        st.lookbackDuration * (st.sampleRate : ℚ))
    (hlt : u < st.audioBuffer.buffer.length) :
    processSpeechEnd st st.audioBuffer.buffer.length =
      .ok (some { audio := st.audioBuffer.buffer.drop
                    (max ((st.audioBuffer.buffer.length : ℤ) -
                      pyInt (st.lookbackDuration * (st.sampleRate : ℚ))) (u : ℤ)).toNat,
                  startIndex := max ((st.audioBuffer.buffer.length : ℤ) -
                    pyInt (st.lookbackDuration * (st.sampleRate : ℚ))) (u : ℤ),
                  endIndex := (st.audioBuffer.buffer.length : ℤ),
                  isTimeoutChunk := false, isReprocessed := true,
                  replaces := [] }) :=
  lookbackNoBoundary_eval st u hu hc hlb hdur hnochunk hlt

/-- C2 (witness): the lookback-without-boundary case applied to the concrete
state `stC2`. -/
theorem speech_end_lookback_no_boundary_witness :
    processSpeechEnd stC2 stC2.audioBuffer.buffer.length =
      .ok (some { audio := stC2.audioBuffer.buffer.drop
                    (max ((stC2.audioBuffer.buffer.length : ℤ) -
                      pyInt (stC2.lookbackDuration * (stC2.sampleRate : ℚ))) ((0 : ℕ) : ℤ)).toNat,
                  startIndex := max ((stC2.audioBuffer.buffer.length : ℤ) -
                    pyInt (stC2.lookbackDuration * (stC2.sampleRate : ℚ))) ((0 : ℕ) : ℤ),
                  endIndex := (stC2.audioBuffer.buffer.length : ℤ),
                  isTimeoutChunk := false, isReprocessed := true,
                  replaces := [] }) :=
  speech_end_lookback_no_boundary stC2 0 rfl (by simp [stC2])
    (by norm_num [stC2]) (by norm_num [stC2])
    (by
      intro ch hch
      simp only [stC2, List.mem_singleton] at hch
      subst hch
      norm_num [stC2])
    (by simp [stC2])

/-- C2 (counterexample): in the state `stC2` (last chunk ended at index 3,
silence edge at 20, lookback window start 11, no chunk boundary inside the
window) the emitted segment covers `[11, 20)`, not `[3, 20)` as the claim
states, and it is marked reprocessed rather than being a plain final
segment. -/
theorem lookback_range_counterexample :
    processSpeechEnd stC2 stC2.audioBuffer.buffer.length = .ok (some specC2) ∧
      specC2.startIndex ≠ (stC2.lastChunkEndIndex : ℤ) ∧
      stC2.lastChunkEndIndex = 3 ∧
      specC2.isReprocessed = true := by
  refine ⟨?_, by norm_num [specC2, stC2], rfl, rfl⟩
  have h := lookbackNoBoundary_eval stC2 0 rfl (by simp [stC2])
    (by norm_num [stC2]) (by norm_num [stC2])
    (by
      intro ch hch
      simp only [stC2, List.mem_singleton] at hch
      subst hch
      norm_num [stC2])
    (by simp [stC2])
  rw [h]
  have hmax : max ((stC2.audioBuffer.buffer.length : ℤ) -
      pyInt (stC2.lookbackDuration * (stC2.sampleRate : ℚ))) ((0 : ℕ) : ℤ) = 11 := by
    norm_num [stC2, pyInt]
  rw [hmax]
  have hdrop : stC2.audioBuffer.buffer.drop (11 : ℤ).toNat = List.replicate 9 0 := by
    show (List.replicate 20 (0 : ℚ)).drop 11 = List.replicate 9 0
    rw [List.drop_replicate]
  rw [hdrop]
  rfl

/-- C6: whenever a timeout chunk is due during speech
(`_should_process_timeout_chunk` holds at `now_index = curLen`), (a) a chunk
whose nominal end `last_chunk_end + int(max_segment_duration * rate)` would
extend past `now_index` is truncated to `now_index`, and (b) if the
truncated chunk duration is below half the maximum segment duration, the
controller emits nothing for this push and leaves `last_chunk_end_index` and
`recent_chunks` unchanged, waiting for more audio. -/
theorem timeout_chunk_truncation (st : ProcessorState) (curLen : ℕ) (newId : ℤ)
    (hcur : curLen = st.audioBuffer.buffer.length)
    (hrate : 0 < st.sampleRate)
    (hdur0 : 0 < st.maxSegmentDuration)
    (hle : st.lastChunkEndIndex ≤ curLen)
    (hdue : st.maxSegmentDuration ≤
      ((curLen : ℚ) - (st.lastChunkEndIndex : ℚ)) / (st.sampleRate : ℚ)) :
    (curLen < st.lastChunkEndIndex +
        (pyInt (st.maxSegmentDuration * (st.sampleRate : ℚ))).toNat →
      timeoutChunkEnd st curLen = curLen) ∧
    (((timeoutChunkEnd st curLen : ℚ) - (st.lastChunkEndIndex : ℚ)) /
          (st.sampleRate : ℚ) < st.maxSegmentDuration / 2 →
      processTimeoutChunk st curLen newId =
        .ok (none, st.lastChunkEndIndex, st.recentChunks)) := by
  have hratQ : (0 : ℚ) < (st.sampleRate : ℚ) := by exact_mod_cast hrate
  have hq0 : (0 : ℚ) < st.maxSegmentDuration * (st.sampleRate : ℚ) :=
    mul_pos hdur0 hratQ
  have hpy : pyInt (st.maxSegmentDuration * (st.sampleRate : ℚ)) =
      ⌊st.maxSegmentDuration * (st.sampleRate : ℚ)⌋ := by
    unfold pyInt
    rw [if_pos hq0.le]
  have hfl0 : 0 ≤ ⌊st.maxSegmentDuration * (st.sampleRate : ℚ)⌋ :=
    Int.floor_nonneg.mpr hq0.le
  have hdueq : st.maxSegmentDuration * (st.sampleRate : ℚ) ≤
      (curLen : ℚ) - (st.lastChunkEndIndex : ℚ) := by
    rw [le_div_iff₀ hratQ] at hdue
    linarith
  have hnle : (pyInt (st.maxSegmentDuration * (st.sampleRate : ℚ))).toNat ≤
      curLen - st.lastChunkEndIndex := by
    rw [hpy]
    have h1 : ((⌊st.maxSegmentDuration * (st.sampleRate : ℚ)⌋.toNat : ℤ) : ℚ) ≤
        (curLen : ℚ) - (st.lastChunkEndIndex : ℚ) := by
      rw [Int.toNat_of_nonneg hfl0]
      exact le_trans (Int.floor_le _) hdueq
    have h2 : (⌊st.maxSegmentDuration * (st.sampleRate : ℚ)⌋.toNat : ℤ) ≤
        (curLen : ℤ) - (st.lastChunkEndIndex : ℤ) := by exact_mod_cast h1
    omega
  have hend : timeoutChunkEnd st curLen = st.lastChunkEndIndex +
      (pyInt (st.maxSegmentDuration * (st.sampleRate : ℚ))).toNat := by
    unfold timeoutChunkEnd
    omega
  constructor
  · intro hpast
    unfold timeoutChunkEnd
    omega
  · intro htrunc
    rw [hend] at htrunc
    have hq2 : ((pyInt (st.maxSegmentDuration * (st.sampleRate : ℚ))).toNat : ℚ) <
        st.maxSegmentDuration * (st.sampleRate : ℚ) / 2 := by
      rw [div_lt_iff₀ hratQ] at htrunc
      push_cast at htrunc
      rw [div_mul_eq_mul_div, lt_div_iff₀ (by norm_num : (0:ℚ) < 2)] at htrunc
      nlinarith [htrunc]
    have hfl_zero : ⌊st.maxSegmentDuration * (st.sampleRate : ℚ)⌋ = 0 := by
      have hup : st.maxSegmentDuration * (st.sampleRate : ℚ) <
          (⌊st.maxSegmentDuration * (st.sampleRate : ℚ)⌋ : ℚ) + 1 :=
        Int.lt_floor_add_one _
      have hcastq : ((⌊st.maxSegmentDuration * (st.sampleRate : ℚ)⌋ : ℤ) : ℚ) <
          st.maxSegmentDuration * (st.sampleRate : ℚ) / 2 := by
        have he : ((⌊st.maxSegmentDuration * (st.sampleRate : ℚ)⌋.toNat : ℕ) : ℚ) =
            ((⌊st.maxSegmentDuration * (st.sampleRate : ℚ)⌋ : ℤ) : ℚ) := by
          exact_mod_cast congrArg (fun z : ℤ => (z : ℚ)) (Int.toNat_of_nonneg hfl0)
        rw [hpy] at hq2
        rw [he] at hq2
        exact hq2
      have hlt1 : ((⌊st.maxSegmentDuration * (st.sampleRate : ℚ)⌋ : ℤ) : ℚ) < 1 := by
        linarith
      have : ⌊st.maxSegmentDuration * (st.sampleRate : ℚ)⌋ < 1 := by exact_mod_cast hlt1
      omega
    have hn0 : (pyInt (st.maxSegmentDuration * (st.sampleRate : ℚ))).toNat = 0 := by
      rw [hpy, hfl_zero]
      rfl
    have hcs_lt : st.lastChunkEndIndex < curLen := by
      have : ((st.lastChunkEndIndex : ℤ) : ℚ) < (curLen : ℤ) := by
        push_cast
        linarith
      have h2 : (st.lastChunkEndIndex : ℤ) < (curLen : ℤ) := by exact_mod_cast this
      omega
    unfold processTimeoutChunk
    dsimp only
    rw [hend, hn0, Nat.add_zero]
    rw [if_neg (by omega)]
    unfold AudioBuffer.extract_segment
    rw [if_neg (by
      rintro (h | h)
      · omega
      · rw [hcur] at hcs_lt
        omega)]
    dsimp only
    have hdz : ((st.lastChunkEndIndex : ℚ) - (st.lastChunkEndIndex : ℚ)) /
        (st.sampleRate : ℚ) * (st.audioBuffer.sampleRate : ℚ) = 0 := by
      rw [sub_self, zero_div, zero_mul]
    rw [hdz]
    have hp0 : pyInt 0 = 0 := by
      unfold pyInt
      rw [if_pos le_rfl]
      exact Int.floor_zero
    rw [hp0]
    have hseg : ((st.audioBuffer.buffer.take
        (min ((st.lastChunkEndIndex : ℤ).toNat + (0 : ℤ).toNat)
          st.audioBuffer.buffer.length)).drop (st.lastChunkEndIndex : ℤ).toNat) =
        ([] : List ℚ) := by
      rw [List.drop_eq_nil_iff]
      simp only [List.length_take, Int.toNat_natCast, Int.toNat_zero, Nat.add_zero]
      omega
    rw [hseg]
    rw [if_pos rfl]

/-- C6 (witness): rate 1 and `max_segment_duration = 1/2` make a due chunk
truncate to zero samples (duration 0 < 1/4); nothing is emitted and the
chunk state is unchanged. -/
theorem timeout_chunk_truncation_witness :
    processTimeoutChunk stC6 1 7 = .ok (none, stC6.lastChunkEndIndex, stC6.recentChunks) :=
  (timeout_chunk_truncation stC6 1 7 rfl (by norm_num [stC6]) (by norm_num [stC6])
    (by norm_num [stC6]) (by norm_num [stC6])).2
    (by norm_num [stC6, timeoutChunkEnd, pyInt])
